import Mathlib

/-!
Verification of the browser launch-configuration layer
(`browser_use/browser/profile.py`): the CLI argument composer
(`BrowserLaunchArgs.args_as_dict` / `args_as_list` / `BrowserProfile.get_args`),
the deprecated-field migration (`copy_old_config_names_to_new`), the
headless/devtools cross-field validator (`validate_devtools_headless`), and the
display resolver (`detect_display_configuration`).

Strings are modelled as Lean `String`s; Python string operations used by the
source (`str.strip`, `str.lstrip('-')`, `str.split('=', 1)`) are modelled
character-list-wise below.  Python `dict` (insertion-ordered, last-write-wins
on values) is modelled as an association list with in-place value update.
Python truthiness is modelled per type: `None`/`0`/`0.0`/`''`/empty dict are
falsy; a `ViewportSize` dict always has both keys, hence is truthy when
present.  Floats hold only the exact values `0.0`/`1.0`/user scale factors in
the source, so they are modelled as `Rat`.
-/

/-- Characters removed by Python `str.strip()` (ASCII whitespace). -/
def isPySpace (c : Char) : Bool :=
  c = ' ' || c = '\t' || c = '\n' || c = '\r' || c = '\x0b' || c = '\x0c'

/-- Python `str.strip()` on a character list: drop whitespace from both ends. -/
def pyStripList (l : List Char) : List Char :=
  ((l.dropWhile isPySpace).reverse.dropWhile isPySpace).reverse

/-- Python `str.strip()`. -/
def pyStrip (s : String) : String :=
  String.mk (pyStripList s.toList)

/-- Python `str.lstrip('-')`: drop leading dashes. -/
def lstripDashes (s : String) : String :=
  String.mk (s.toList.dropWhile (fun c => c = '-'))

/-- Python `s.split('=', 1)`: the part before the first `'='` and the part
after it.  When no `'='` occurs the second component is empty, matching the
observable value `''` the source pads with (`[*arg.split('=', 1), '', '', '']`). -/
def splitEqList : List Char → List Char × List Char
  | [] => ([], [])
  | c :: cs =>
    if c = '=' then ([], cs)
    else
      let p := splitEqList cs
      (c :: p.1, p.2)

/-- One step of `args_as_dict`'s loop body:
`key, value, *_ = [*arg.split('=', 1), '', '', '']` followed by
`key.strip().lstrip('-')` and `value.strip()`. -/
def parseArg (a : String) : String × String :=
  let p := splitEqList a.toList
  (lstripDashes (pyStrip (String.mk p.1)), pyStrip (String.mk p.2))

/-- The key a flag string parses to. -/
def parseKey (a : String) : String := (parseArg a).1

/-- Python `dict` assignment `d[k] = v`: update the value in place if the key
exists (keeping its first-seen position), else append the new pair. -/
def dictInsert : List (String × String) → String → String → List (String × String)
  | [], k, v => [(k, v)]
  | (k1, v1) :: rest, k, v =>
    if k1 = k then (k1, v) :: rest else (k1, v1) :: dictInsert rest k v

/-- Python `dict` lookup `d[k]` (as an `Option`). -/
def dictLookup (k : String) : List (String × String) → Option String
  | [] => none
  | (k1, v) :: rest => if k1 = k then some v else dictLookup k rest

/-- `BrowserLaunchArgs.args_as_dict`: parse every flag into a `(key, value)`
pair and accumulate into an insertion-ordered, last-write-wins mapping. -/
def args_as_dict (args : List String) : List (String × String) :=
  args.foldl (fun d a => dictInsert d (parseArg a).1 (parseArg a).2) []

/-- Rendering of a single `(key, value)` pair by `args_as_list`:
`f'--{key.lstrip("-")}={value}' if value else f'--{key.lstrip("-")}'`. -/
def renderArg (kv : String × String) : String :=
  if kv.2 = "" then "--" ++ lstripDashes kv.1
  else "--" ++ lstripDashes kv.1 ++ "=" ++ kv.2

/-- `BrowserLaunchArgs.args_as_list`. -/
def args_as_list (d : List (String × String)) : List String :=
  d.map renderArg

/-- Decimal digits of a natural number, fuel-indexed so that it reduces
definitionally (`natDigitsAux (n+1) n` always has enough fuel). -/
def natDigitsAux : Nat → Nat → List Char
  | 0, _ => []
  | fuel + 1, n =>
    if n < 10 then [Nat.digitChar n]
    else natDigitsAux fuel (n / 10) ++ [Nat.digitChar (n % 10)]

/-- Decimal digits of a natural number. -/
def natDigits (n : Nat) : List Char := natDigitsAux (n + 1) n

/-- Python `f'{i}'` for an int: decimal rendering. -/
def intToString : Int → String
  | Int.ofNat n => String.mk (natDigits n)
  | Int.negSucc n => String.mk ('-' :: natDigits (n + 1))

/-- Playwright `ViewportSize`: a dict with `width` and `height` keys. -/
structure ViewportSize where
  width : Int
  height : Int
deriving DecidableEq, Repr

/-- `ignore_default_args : list[CliArgStr] | Literal[True]`. -/
inductive IgnoreDefaultArgs where
  | explicitList (l : List String)
  | suppressAll
deriving DecidableEq, Repr

/-- The fields of `BrowserProfile` read or written by the operations under
verification (`get_args`, `copy_old_config_names_to_new`,
`validate_devtools_headless`, `detect_display_configuration`), plus
`keep_alive` as a representative field none of them touch. -/
structure BrowserProfile where
  headless : Option Bool
  devtools : Bool
  args : List String
  ignore_default_args : IgnoreDefaultArgs
  profile_directory : String
  disable_security : Bool
  deterministic_rendering : Bool
  window_size : Option ViewportSize
  window_width : Option Int
  window_height : Option Int
  window_position : Option ViewportSize
  viewport : Option ViewportSize
  no_viewport : Option Bool
  device_scale_factor : Option Rat
  screen : Option ViewportSize
  keep_alive : Option Bool
deriving DecidableEq, Repr

/-- Python truthiness of an optional int (`None` and `0` are falsy). -/
def tvInt : Option Int → Bool
  | none => false
  | some n => n != 0

/-- Python truthiness of an optional float (`None` and `0.0` are falsy). -/
def tvRat : Option Rat → Bool
  | none => false
  | some q => q != 0

/-- Python truthiness of an optional bool (`None` is falsy). -/
def tvBool : Option Bool → Bool
  | none => false
  | some b => b

/-- Python `a or b` for optional `ViewportSize` dicts: a present dict always
has both keys, hence is truthy. -/
def pyOrVS (a b : Option ViewportSize) : Option ViewportSize :=
  match a with
  | some x => some x
  | none => b

/-- Python `a or b` for an optional int against an int default. -/
def pyOrInt (a : Option Int) (b : Option Int) : Option Int :=
  if tvInt a then a else b

/-- Python `a or d` collapsing to the int value. -/
def pyOrIntD (a : Option Int) (d : Int) : Int :=
  if tvInt a then a.getD d else d

/-- Python `a or d` for an optional float against a float default. -/
def pyOrRat (a : Option Rat) (d : Rat) : Rat :=
  match a with
  | some x => if x = 0 then d else x
  | none => d

def CHROME_DISABLED_COMPONENTS : List String := [
  "AcceptCHFrame",
  "AutoExpandDetailsElement",
  "AvoidUnnecessaryBeforeUnloadCheckSync",
  "CertificateTransparencyComponentUpdater",
  "DestroyProfileOnBrowserClose",
  "DialMediaRouteProvider",
  "ExtensionManifestV2Disabled",
  "GlobalMediaControls",
  "HttpsUpgrades",
  "ImprovedCookieControls",
  "LazyFrameLoading",
  "LensOverlay",
  "MediaRouter",
  "PaintHolding",
  "ThirdPartyStoragePartitioning",
  "Translate",
  "AutomationControlled",
  "OptimizationHints",
  "ProcessPerSiteUpToMainFrameThreshold",
  "InterestFeedContentSuggestions",
  "CalculateNativeWinOcclusion",
  "HeavyAdPrivacyMitigations",
  "PrivacySandboxSettings4",
  "AutofillServerCommunication",
  "CrashReporting",
  "OverscrollHistoryNavigation",
  "InfiniteSessionRestore",
  "ExtensionDisableUnsupportedDeveloper",
  "OptimizationGuideModelDownloading",
  "OptimizationHintsFetching",
  "OptimizationTargetPrediction"]

def CHROME_HEADLESS_ARGS : List String := ["--headless=new"]

def CHROME_DOCKER_ARGS : List String := [
  "--no-sandbox",
  "--disable-gpu-sandbox",
  "--disable-setuid-sandbox",
  "--disable-dev-shm-usage",
  "--no-xshm",
  "--no-zygote",
  "--single-process"]

def CHROME_DISABLE_SECURITY_ARGS : List String := [
  "--disable-web-security",
  "--disable-site-isolation-trials",
  "--disable-features=IsolateOrigins,site-per-process",
  "--allow-running-insecure-content",
  "--ignore-certificate-errors",
  "--ignore-ssl-errors",
  "--ignore-certificate-errors-spki-list"]

def CHROME_DETERMINISTIC_RENDERING_ARGS : List String := [
  "--deterministic-mode",
  "--js-flags=--random-seed=1157259159",
  "--force-device-scale-factor=2",
  "--enable-webgl",
  "--font-render-hinting=none",
  "--force-color-profile=srgb"]

def CHROME_DEFAULT_ARGS : List String := [
  "--disable-field-trial-config",
  "--disable-background-networking",
  "--disable-background-timer-throttling",
  "--disable-backgrounding-occluded-windows",
  "--disable-back-forward-cache",
  "--disable-breakpad",
  "--disable-client-side-phishing-detection",
  "--disable-component-extensions-with-background-pages",
  "--disable-component-update",
  "--no-default-browser-check",
  "--disable-dev-shm-usage",
  "--allow-pre-commit-input",
  "--disable-hang-monitor",
  "--disable-ipc-flooding-protection",
  "--disable-popup-blocking",
  "--disable-prompt-on-repost",
  "--disable-renderer-backgrounding",
  "--metrics-recording-only",
  "--no-first-run",
  "--password-store=basic",
  "--use-mock-keychain",
  "--no-service-autorun",
  "--export-tagged-pdf",
  "--disable-search-engine-choice-screen",
  "--unsafely-disable-devtools-self-xss-warnings",
  "--enable-features=NetworkService,NetworkServiceInProcess",
  "--enable-network-information-downlink-max",
  "--test-type=gpu",
  "--disable-sync",
  "--allow-legacy-extension-manifests",
  "--allow-pre-commit-input",
  "--disable-blink-features=AutomationControlled",
  "--install-autogenerated-theme=0,0,0",
  "--hide-scrollbars",
  "--log-level=2",
  "--disable-focus-on-load",
  "--disable-window-activation",
  "--generate-pdf-document-outline",
  "--no-pings",
  "--ash-no-nudges",
  "--disable-infobars",
  "--simulate-outdated-no-au=\"Tue, 31 Dec 2099 23:59:59 GMT\"",
  "--hide-crash-restore-bubble",
  "--suppress-message-center-popups",
  "--disable-domain-reliability",
  "--disable-datasaver-prompt",
  "--disable-speech-synthesis-api",
  "--disable-speech-api",
  "--disable-print-preview",
  "--safebrowsing-disable-auto-update",
  "--disable-external-intent-requests",
  "--disable-desktop-notifications",
  "--noerrdialogs",
  "--silent-debugger-extension-api",
  "--disable-features=" ++ String.intercalate "," CHROME_DISABLED_COMPONENTS]

/-- First-occurrence deduplication: the contents of `set(a)` as Python builds
it, in a fixed order.  Within one CPython process the iteration order of a set
is a fixed function of its contents, so a fixed representative order is a
faithful model of per-process behaviour. -/
def dedupFirst : List String → List String
  | [] => []
  | x :: xs => x :: (dedupFirst xs).filter (fun y => y != x)

/-- Python `set(a) - set(b)` as iterated by `get_args`. -/
def pySetDiff (a b : List String) : List String :=
  (dedupFirst a).filter (fun x => !(b.contains x))

/-- `copy_old_config_names_to_new`: fold deprecated `window_width` /
`window_height` into `window_size`. -/
def copy_old_config_names_to_new (p : BrowserProfile) : BrowserProfile :=
  if tvInt p.window_width || tvInt p.window_height then
    let w := pyOrIntD (pyOrInt (p.window_size.map ViewportSize.width) p.window_width) 1280
    let h := pyOrIntD (pyOrInt (p.window_size.map ViewportSize.height) p.window_height) 1100
    { p with window_size := some ⟨w, h⟩ }
  else p

/-- `validate_devtools_headless`: `assert not (self.headless and self.devtools)`,
run by the validation framework after all fields are set. -/
def validate_devtools_headless (p : BrowserProfile) : Except String BrowserProfile :=
  if tvBool p.headless && p.devtools then
    Except.error "headless=True and devtools=True cannot both be set at the same time"
  else Except.ok p

/-- The flag list `get_args` accumulates before deduplication, in source
order.  `in_docker` is the `IN_DOCKER` environment signal. -/
def composedInput (in_docker : Bool) (p : BrowserProfile) : List String :=
  (match p.ignore_default_args with
   | IgnoreDefaultArgs.explicitList l => pySetDiff CHROME_DEFAULT_ARGS l
   | IgnoreDefaultArgs.suppressAll => [])
  ++ p.args
  ++ ["--profile-directory=" ++ p.profile_directory]
  ++ (if in_docker then CHROME_DOCKER_ARGS else [])
  ++ (if tvBool p.headless then CHROME_HEADLESS_ARGS else [])
  ++ (if p.disable_security then CHROME_DISABLE_SECURITY_ARGS else [])
  ++ (if p.deterministic_rendering then CHROME_DETERMINISTIC_RENDERING_ARGS else [])
  ++ (match p.window_size with
      | some ws => ["--window-size=" ++ intToString ws.height ++ "," ++ intToString ws.width]
      | none => if !(tvBool p.headless) then ["--start-maximized"] else [])
  ++ (match p.window_position with
      | some wp => ["--window-position=" ++ intToString wp.width ++ "," ++ intToString wp.height]
      | none => [])

/-- `BrowserProfile.get_args`. -/
def get_args (in_docker : Bool) (p : BrowserProfile) : List String :=
  args_as_list (args_as_dict (composedInput in_docker p))

/-- The 1280x1100 fallback geometry. -/
def fallbackVS : ViewportSize := ⟨1280, 1100⟩

/-- `BrowserProfile.detect_display_configuration`, as a function of the
memoized platform display query result `d` (`get_display_size()`). -/
def detect_display_configuration (d : Option ViewportSize) (p : BrowserProfile) :
    BrowserProfile :=
  let screen1 : Option ViewportSize :=
    if d.isSome then pyOrVS p.screen (pyOrVS d (some fallbackVS)) else p.screen
  let headless1 : Bool :=
    match p.headless with
    | none => d.isNone
    | some b => b
  let ws2 : Option ViewportSize :=
    if headless1 then none else pyOrVS p.window_size (pyOrVS d (some fallbackVS))
  let wp2 : Option ViewportSize :=
    if headless1 then none else p.window_position
  let nv2 : Option Bool :=
    if headless1 then some false
    else match p.no_viewport with
         | none => some true
         | some b => some b
  let vp2 : Option ViewportSize :=
    if headless1 then pyOrVS p.viewport (pyOrVS d (some fallbackVS))
    else if tvBool nv2 then none else p.viewport
  let use1 : Bool := headless1 || vp2.isSome || tvRat p.device_scale_factor
  let nv3 : Option Bool :=
    match nv2 with
    | none => some (!use1)
    | some b => some b
  let use2 : Bool := !(tvBool nv3)
  let vp3 : Option ViewportSize :=
    if use2 then pyOrVS vp2 (pyOrVS d (some fallbackVS)) else none
  let dsf3 : Option Rat :=
    if use2 then some (pyOrRat p.device_scale_factor 1) else none
  let screen3 : Option ViewportSize :=
    if use2 then pyOrVS screen1 (pyOrVS d (some fallbackVS)) else none
  { p with headless := some headless1, screen := screen3, window_size := ws2,
           window_position := wp2, no_viewport := nv3, viewport := vp3,
           device_scale_factor := dsf3 }

/-- The three facts about a flag key produced by
`key.strip().lstrip('-')` that make re-parsing its rendered form recover it:
no leading dash, no `'='`, no trailing whitespace. -/
def KeyClean (k : String) : Prop :=
  (∀ c, k.toList.head? = some c → c ≠ '-') ∧ ('=' ∉ k.toList) ∧
  (∀ c, k.toList.getLast? = some c → isPySpace c = false)

/-- One iteration of the `args_as_dict` loop. -/
def dictStep (d : List (String × String)) (a : String) : List (String × String) :=
  dictInsert d (parseArg a).1 (parseArg a).2

/-- Everything `get_args` accumulates before the window-size / maximize
choice. -/
def composedPre (in_docker : Bool) (p : BrowserProfile) : List String :=
  (match p.ignore_default_args with
   | IgnoreDefaultArgs.explicitList l => pySetDiff CHROME_DEFAULT_ARGS l
   | IgnoreDefaultArgs.suppressAll => [])
  ++ p.args
  ++ ["--profile-directory=" ++ p.profile_directory]
  ++ (if in_docker then CHROME_DOCKER_ARGS else [])
  ++ (if tvBool p.headless then CHROME_HEADLESS_ARGS else [])
  ++ (if p.disable_security then CHROME_DISABLE_SECURITY_ARGS else [])
  ++ (if p.deterministic_rendering then CHROME_DETERMINISTIC_RENDERING_ARGS else [])

/-- The window-size / maximize segment of the composed input. -/
def windowSizeSeg (p : BrowserProfile) : List String :=
  match p.window_size with
  | some ws => ["--window-size=" ++ intToString ws.height ++ "," ++ intToString ws.width]
  | none => if !(tvBool p.headless) then ["--start-maximized"] else []

/-- The window-position segment of the composed input. -/
def windowPosSeg (p : BrowserProfile) : List String :=
  match p.window_position with
  | some wp => ["--window-position=" ++ intToString wp.width ++ "," ++ intToString wp.height]
  | none => []

/-- The profile all of whose modelled fields hold their declared defaults. -/
def defaultProfile : BrowserProfile :=
  { headless := none, devtools := false, args := [],
    ignore_default_args :=
      IgnoreDefaultArgs.explicitList ["--enable-automation", "--disable-extensions"],
    profile_directory := "Default", disable_security := false,
    deterministic_rendering := false, window_size := none, window_width := none,
    window_height := none, window_position := some ⟨0, 0⟩, viewport := none,
    no_viewport := none, device_scale_factor := none, screen := none,
    keep_alive := none }

/-- A profile with a window size set, used to exhibit the composed output. -/
def sizedProfile : BrowserProfile :=
  { defaultProfile with window_size := some ⟨800, 600⟩ }

/-- A profile that is headless but still has a window size set: the source
emits the window-size flag for it even though it is headless. -/
def headlessSizedProfile : BrowserProfile :=
  { defaultProfile with
    headless := some true
    window_size := some ⟨800, 600⟩
    ignore_default_args := IgnoreDefaultArgs.suppressAll
    window_position := none }

/-- Two profiles equal on every composer-relevant field but differing in
`devtools` and `keep_alive`. -/
def profileA : BrowserProfile :=
  { defaultProfile with keep_alive := some true, devtools := true }

/-! ### Character-list lemmas about the Python string operations -/

theorem dropWhile_eq_self_of_head {α : Type} {p : α → Bool} {l : List α}
    (h : ∀ c, l.head? = some c → p c = false) : l.dropWhile p = l := by
  cases l with
  | nil => rfl
  | cons a t => exact List.dropWhile_cons_of_neg (by simp [h a rfl])

theorem head?_dropWhile_false {α : Type} {p : α → Bool} {l : List α} {c : α}
    (h : (l.dropWhile p).head? = some c) : p c = false := by
  have := List.head?_dropWhile_not p l
  rw [h] at this
  exact this

theorem getLast?_dropWhile {α : Type} {p : α → Bool} {l : List α} {c : α}
    (h : (l.dropWhile p).getLast? = some c) : l.getLast? = some c := by
  obtain ⟨t, ht⟩ := List.dropWhile_suffix (l := l) p
  rw [← ht, List.getLast?_append, h]
  rfl

theorem pyStripList_eq_self {l : List Char}
    (h1 : ∀ c, l.head? = some c → isPySpace c = false)
    (h2 : ∀ c, l.getLast? = some c → isPySpace c = false) :
    pyStripList l = l := by
  unfold pyStripList
  rw [dropWhile_eq_self_of_head h1]
  rw [dropWhile_eq_self_of_head (by simpa using h2)]
  exact l.reverse_reverse

theorem mem_pyStripList {l : List Char} {c : Char} (h : c ∈ pyStripList l) : c ∈ l := by
  unfold pyStripList at h
  rw [List.mem_reverse] at h
  have h2 := List.dropWhile_subset (p := isPySpace) h
  rw [List.mem_reverse] at h2
  exact List.dropWhile_subset (p := isPySpace) h2

theorem getLast?_pyStripList {l : List Char} {c : Char}
    (h : (pyStripList l).getLast? = some c) : isPySpace c = false := by
  unfold pyStripList at h
  rw [List.getLast?_reverse] at h
  exact head?_dropWhile_false h

theorem splitEqList_fst_no_eq (l : List Char) : '=' ∉ (splitEqList l).1 := by
  induction l with
  | nil => simp [splitEqList]
  | cons c cs ih =>
    by_cases h : c = '='
    · simp [splitEqList, h]
    · show '=' ∉ ((if c = '=' then (([] : List Char), cs)
        else (c :: (splitEqList cs).1, (splitEqList cs).2)) : List Char × List Char).1
      rw [if_neg h]
      intro hmem
      rcases List.mem_cons.mp hmem with h1 | h2
      · exact h h1.symm
      · exact ih h2

theorem splitEqList_no_eq {l : List Char} (h : '=' ∉ l) : splitEqList l = (l, []) := by
  induction l with
  | nil => rfl
  | cons c cs ih =>
    simp only [List.mem_cons, not_or] at h
    have hc : ¬c = '=' := fun hh => h.1 hh.symm
    show (if c = '=' then (([] : List Char), cs)
        else (c :: (splitEqList cs).1, (splitEqList cs).2)) = (c :: cs, [])
    rw [if_neg hc, ih h.2]

theorem splitEqList_append {l1 l2 : List Char} (h : '=' ∉ l1) :
    splitEqList (l1 ++ '=' :: l2) = (l1, l2) := by
  induction l1 with
  | nil => simp [splitEqList]
  | cons c cs ih =>
    simp only [List.mem_cons, not_or] at h
    have hc : ¬c = '=' := fun hh => h.1 hh.symm
    show (if c = '=' then (([] : List Char), cs ++ '=' :: l2)
        else (c :: (splitEqList (cs ++ '=' :: l2)).1, (splitEqList (cs ++ '=' :: l2)).2)) =
        (c :: cs, l2)
    rw [if_neg hc, ih h.2]

theorem toList_mk (l : List Char) : (String.mk l).toList = l := rfl

theorem mk_toList (s : String) : String.mk s.toList = s := rfl

theorem parseArg_keyClean (a : String) : KeyClean (parseArg a).1 := by
  refine ⟨?_, ?_, ?_⟩
  · intro c hc
    have hc2 : ((pyStripList (splitEqList a.toList).1).dropWhile
        (fun c => decide (c = '-'))).head? = some c := hc
    have := head?_dropWhile_false hc2
    simpa using this
  · intro hmem
    have hmem2 : '=' ∈ (pyStripList (splitEqList a.toList).1).dropWhile
        (fun c => decide (c = '-')) := hmem
    exact splitEqList_fst_no_eq a.toList
      (mem_pyStripList ((List.dropWhile_subset _) hmem2))
  · intro c hc
    have hc2 : ((pyStripList (splitEqList a.toList).1).dropWhile
        (fun c => decide (c = '-'))).getLast? = some c := hc
    exact getLast?_pyStripList (getLast?_dropWhile hc2)

theorem lstripDashes_eq_self {k : String}
    (h : ∀ c, k.toList.head? = some c → c ≠ '-') : lstripDashes k = k := by
  unfold lstripDashes
  rw [dropWhile_eq_self_of_head (by intro c hc; simpa using h c hc)]
  exact mk_toList k

/-- Re-parsing a rendered flag recovers its key. -/
theorem parseKey_renderArg {k v : String} (h : KeyClean k) :
    parseKey (renderArg (k, v)) = k := by
  obtain ⟨h1, h2, h3⟩ := h
  have hstrip : pyStripList ('-' :: '-' :: k.toList) = '-' :: '-' :: k.toList := by
    apply pyStripList_eq_self
    · intro c hc
      simp only [List.head?_cons, Option.some.injEq] at hc
      subst hc
      decide
    · intro c hc
      match hk : k.toList with
      | [] =>
        rw [hk] at hc
        simp at hc
        subst hc
        decide
      | c0 :: cs =>
        rw [hk] at hc
        rw [List.getLast?_cons_cons, List.getLast?_cons_cons] at hc
        exact h3 c (by rw [hk]; exact hc)
  have hdash : ('-' :: '-' :: k.toList).dropWhile (fun c => decide (c = '-')) = k.toList := by
    rw [List.dropWhile_cons_of_pos (by decide), List.dropWhile_cons_of_pos (by decide)]
    exact dropWhile_eq_self_of_head (by intro c hc; simpa using h1 c hc)
  have hne : '=' ∉ '-' :: '-' :: k.toList := by
    simp only [List.mem_cons, not_or]
    exact ⟨by decide, by decide, h2⟩
  have hl : lstripDashes k = k := lstripDashes_eq_self h1
  show parseKey (if v = "" then "--" ++ lstripDashes k
      else "--" ++ lstripDashes k ++ "=" ++ v) = k
  rw [hl]
  by_cases hv : v = ""
  · rw [if_pos hv]
    have ht : ("--" ++ k).toList = '-' :: '-' :: k.toList := by
      show ("--" ++ k).data = _
      rw [String.data_append]
      rfl
    show lstripDashes (pyStrip (String.mk (splitEqList ("--" ++ k).toList).1)) = k
    rw [ht, splitEqList_no_eq hne]
    show lstripDashes (String.mk (pyStripList ('-' :: '-' :: k.toList))) = k
    rw [hstrip]
    show String.mk (('-' :: '-' :: k.toList).dropWhile (fun c => decide (c = '-'))) = k
    rw [hdash]
    exact mk_toList k
  · rw [if_neg hv]
    have ht : ("--" ++ k ++ "=" ++ v).toList = ('-' :: '-' :: k.toList) ++ '=' :: v.toList := by
      show ((("--" ++ k) ++ "=") ++ v).data = _
      simp only [String.data_append, List.append_assoc]
      rfl
    show lstripDashes (pyStrip (String.mk (splitEqList ("--" ++ k ++ "=" ++ v).toList).1)) = k
    rw [ht, splitEqList_append hne]
    show lstripDashes (String.mk (pyStripList ('-' :: '-' :: k.toList))) = k
    rw [hstrip]
    show String.mk (('-' :: '-' :: k.toList).dropWhile (fun c => decide (c = '-'))) = k
    rw [hdash]
    exact mk_toList k

/-! ### Lemmas about the insertion-ordered dict -/

theorem args_as_dict_eq_foldl (args : List String) :
    args_as_dict args = args.foldl dictStep [] := rfl

theorem dictInsert_keys (d : List (String × String)) (k v : String) :
    (dictInsert d k v).map Prod.fst =
      if k ∈ d.map Prod.fst then d.map Prod.fst else d.map Prod.fst ++ [k] := by
  induction d with
  | nil => simp [dictInsert]
  | cons hd tl ih =>
    obtain ⟨k1, v1⟩ := hd
    by_cases h : k1 = k
    · subst h
      simp [dictInsert]
    · simp only [dictInsert, if_neg h, List.map_cons, List.mem_cons]
      rw [ih]
      by_cases hm : k ∈ tl.map Prod.fst
      · simp [hm, Ne.symm h]
      · simp [hm, Ne.symm h]

theorem dictInsert_keys_nodup {d : List (String × String)} (hd : (d.map Prod.fst).Nodup)
    (k v : String) : ((dictInsert d k v).map Prod.fst).Nodup := by
  rw [dictInsert_keys]
  by_cases hm : k ∈ d.map Prod.fst
  · rwa [if_pos hm]
  · rw [if_neg hm]
    exact hd.append (List.nodup_singleton k) (List.disjoint_singleton.mpr hm)

theorem foldl_dictStep_keys_nodup (args : List String) :
    ∀ init : List (String × String), (init.map Prod.fst).Nodup →
      ((args.foldl dictStep init).map Prod.fst).Nodup := by
  induction args with
  | nil => intro init h; exact h
  | cons a rest ih =>
    intro init h
    exact ih (dictStep init a) (dictInsert_keys_nodup h _ _)

/-- The keys of the composed dict are all parse results. -/
theorem foldl_dictStep_keys_sub (args : List String) :
    ∀ (init : List (String × String)) (k : String),
      k ∈ (args.foldl dictStep init).map Prod.fst →
      k ∈ init.map Prod.fst ∨ k ∈ args.map parseKey := by
  induction args with
  | nil =>
    intro init k h
    exact Or.inl h
  | cons a rest ih =>
    intro init k h
    rcases ih (dictStep init a) k h with h1 | h2
    · rw [dictStep, dictInsert_keys] at h1
      by_cases hm : (parseArg a).1 ∈ init.map Prod.fst
      · rw [if_pos hm] at h1
        exact Or.inl h1
      · rw [if_neg hm] at h1
        rcases List.mem_append.mp h1 with h3 | h4
        · exact Or.inl h3
        · refine Or.inr ?_
          simp only [List.mem_singleton] at h4
          subst h4
          exact List.mem_cons_self _ _
    · exact Or.inr (List.mem_cons_of_mem (parseKey a) h2)

/-- Every key in the composed dict is `KeyClean`. -/
theorem foldl_dictStep_keys_clean (args : List String) :
    ∀ init : List (String × String), (∀ kv ∈ init, KeyClean kv.1) →
      ∀ kv ∈ args.foldl dictStep init, KeyClean kv.1 := by
  induction args with
  | nil => intro init h; exact h
  | cons a rest ih =>
    intro init h
    refine ih (dictStep init a) ?_
    intro kv hkv
    clear ih
    induction init with
    | nil =>
      simp only [dictStep, dictInsert, List.mem_singleton] at hkv
      subst hkv
      exact parseArg_keyClean a
    | cons hd tl ihtl =>
      obtain ⟨k1, v1⟩ := hd
      simp only [dictStep, dictInsert] at hkv
      by_cases he : k1 = (parseArg a).1
      · rw [if_pos he] at hkv
        rcases List.mem_cons.mp hkv with h1 | h2
        · subst h1
          rw [he]
          exact parseArg_keyClean a
        · exact h _ (List.mem_cons_of_mem _ h2)
      · rw [if_neg he] at hkv
        rcases List.mem_cons.mp hkv with h1 | h2
        · subst h1
          exact h _ (List.mem_cons_self _ _)
        · exact ihtl (fun kv2 hkv2 => h kv2 (List.mem_cons_of_mem _ hkv2)) h2

theorem dictLookup_insert_self (d : List (String × String)) (k v : String) :
    dictLookup k (dictInsert d k v) = some v := by
  induction d with
  | nil => simp [dictInsert, dictLookup]
  | cons hd tl ih =>
    obtain ⟨k1, v1⟩ := hd
    by_cases h : k1 = k
    · subst h
      simp [dictInsert, dictLookup]
    · simp [dictInsert, dictLookup, h, ih]

theorem dictLookup_insert_ne (d : List (String × String)) {k k1 : String}
    (h : k1 ≠ k) (v : String) : dictLookup k (dictInsert d k1 v) = dictLookup k d := by
  induction d with
  | nil => simp [dictInsert, dictLookup, h]
  | cons hd tl ih =>
    obtain ⟨k2, v2⟩ := hd
    by_cases h2 : k2 = k1
    · subst h2
      simp [dictInsert, dictLookup, h]
    · by_cases h3 : k2 = k
      · subst h3
        simp [dictInsert, dictLookup, h2]
      · simp [dictInsert, dictLookup, h2, h3, ih]

theorem dictLookup_mem {d : List (String × String)} {k v : String}
    (h : dictLookup k d = some v) : (k, v) ∈ d := by
  induction d with
  | nil => simp [dictLookup] at h
  | cons hd tl ih =>
    obtain ⟨k1, v1⟩ := hd
    by_cases h1 : k1 = k
    · subst h1
      have hv : v1 = v := by simpa [dictLookup] using h
      subst hv
      exact List.mem_cons_self _ _
    · simp only [dictLookup, if_neg h1] at h
      exact List.mem_cons_of_mem _ (ih h)

/-- Appending flags whose keys all differ from `k` does not change `k`'s value. -/
theorem dictLookup_foldl_ne {args : List String} {k : String}
    (h : ∀ a ∈ args, parseKey a ≠ k) (init : List (String × String)) :
    dictLookup k (args.foldl dictStep init) = dictLookup k init := by
  induction args generalizing init with
  | nil => rfl
  | cons a rest ih =>
    have ha : parseKey a ≠ k := h a (List.mem_cons_self _ _)
    rw [List.foldl_cons, ih (fun b hb => h b (List.mem_cons_of_mem a hb))]
    exact dictLookup_insert_ne init ha _

/-! ### Composer-level lemmas -/

theorem map_parseKey_args_as_list {d : List (String × String)}
    (h : ∀ kv ∈ d, KeyClean kv.1) :
    (args_as_list d).map parseKey = d.map Prod.fst := by
  unfold args_as_list
  rw [List.map_map]
  exact List.map_congr_left (fun kv hkv => parseKey_renderArg (h kv hkv))

theorem args_as_dict_keys_clean (args : List String) :
    ∀ kv ∈ args_as_dict args, KeyClean kv.1 :=
  foldl_dictStep_keys_clean args [] (by simp)

/-- The keys of the final composed list, in order, are exactly the dict keys. -/
theorem map_parseKey_compose (args : List String) :
    (args_as_list (args_as_dict args)).map parseKey = (args_as_dict args).map Prod.fst :=
  map_parseKey_args_as_list (args_as_dict_keys_clean args)

/-- Every key appearing in the composed output traces back to a parsed input flag. -/
theorem parseKey_mem_of_mem_compose {args : List String} {f : String}
    (h : f ∈ args_as_list (args_as_dict args)) : parseKey f ∈ args.map parseKey := by
  obtain ⟨kv, hkv, hf⟩ := List.mem_map.mp h
  have hclean := args_as_dict_keys_clean args kv hkv
  have hkey : parseKey f = kv.1 := by
    rw [← hf]
    obtain ⟨k, v⟩ := kv
    exact parseKey_renderArg hclean
  rw [hkey]
  have hmem : kv.1 ∈ (args_as_dict args).map Prod.fst := List.mem_map_of_mem Prod.fst hkv
  rcases foldl_dictStep_keys_sub args [] kv.1 hmem with h1 | h2
  · simp at h1
  · exact h2

theorem mem_dedupFirst {l : List String} {x : String} : x ∈ dedupFirst l ↔ x ∈ l := by
  induction l with
  | nil => simp [dedupFirst]
  | cons a t ih =>
    simp only [dedupFirst, List.mem_cons, List.mem_filter, ih, bne_iff_ne, ne_eq]
    constructor
    · rintro (rfl | ⟨h1, _⟩)
      · exact Or.inl rfl
      · exact Or.inr h1
    · rintro (rfl | h1)
      · exact Or.inl rfl
      · by_cases hx : x = a
        · exact Or.inl hx
        · exact Or.inr ⟨h1, hx⟩

theorem mem_pySetDiff {a b : List String} {x : String} :
    x ∈ pySetDiff a b ↔ x ∈ a ∧ x ∉ b := by
  simp [pySetDiff, List.mem_filter, mem_dedupFirst, List.contains]

/-- Parsing a flag of the form `pre ++ "=" ++ rest`: the key comes from `pre`
alone and the value is the stripped rest. -/
theorem parseArg_keyEq (pre s : String) (h : '=' ∉ pre.toList) :
    parseArg ((pre ++ "=") ++ s) = (lstripDashes (pyStrip pre), pyStrip s) := by
  show (lstripDashes (pyStrip (String.mk (splitEqList ((pre ++ "=") ++ s).toList).1)),
        pyStrip (String.mk (splitEqList ((pre ++ "=") ++ s).toList).2)) = _
  have ht : ((pre ++ "=") ++ s).toList = pre.toList ++ '=' :: s.toList := by
    show ((pre ++ "=") ++ s).data = _
    simp only [String.data_append, List.append_assoc]
    rfl
  rw [ht, splitEqList_append h]
  rfl

theorem parseKey_profile_directory (s : String) :
    parseKey ("--profile-directory=" ++ s) = "profile-directory" := by
  have he : ("--profile-directory=" ++ s) = ("--profile-directory" ++ "=") ++ s := rfl
  rw [parseKey, he, parseArg_keyEq _ _ (by decide)]
  show lstripDashes (pyStrip "--profile-directory") = "profile-directory"
  decide

theorem parseArg_window_size (s : String) :
    parseArg ("--window-size=" ++ s) = ("window-size", pyStrip s) := by
  have he : ("--window-size=" ++ s) = ("--window-size" ++ "=") ++ s := rfl
  rw [he, parseArg_keyEq _ _ (by decide)]
  rw [show lstripDashes (pyStrip "--window-size") = "window-size" from by decide]

theorem parseKey_window_size (s : String) :
    parseKey ("--window-size=" ++ s) = "window-size" := by
  rw [parseKey, parseArg_window_size]

theorem parseKey_window_position (s : String) :
    parseKey ("--window-position=" ++ s) = "window-position" := by
  have he : ("--window-position=" ++ s) = ("--window-position" ++ "=") ++ s := rfl
  rw [parseKey, he, parseArg_keyEq _ _ (by decide)]
  show lstripDashes (pyStrip "--window-position") = "window-position"
  decide

theorem digitChar_not_space (n : Nat) : isPySpace (Nat.digitChar n) = false := by
  rcases Nat.lt_or_ge n 16 with h | h
  · interval_cases n <;> decide
  · unfold Nat.digitChar
    repeat rw [if_neg (by omega)]
    decide

theorem natDigitsAux_no_space (fuel : Nat) :
    ∀ n c, c ∈ natDigitsAux fuel n → isPySpace c = false := by
  induction fuel with
  | zero => intro n c hc; simp [natDigitsAux] at hc
  | succ fuel ih =>
    intro n c hc
    unfold natDigitsAux at hc
    by_cases h : n < 10
    · rw [if_pos h] at hc
      simp only [List.mem_singleton] at hc
      subst hc
      exact digitChar_not_space n
    · rw [if_neg h] at hc
      rcases List.mem_append.mp hc with h1 | h2
      · exact ih _ c h1
      · simp only [List.mem_singleton] at h2
        subst h2
        exact digitChar_not_space _

theorem intToString_no_space (i : Int) :
    ∀ c ∈ (intToString i).toList, isPySpace c = false := by
  intro c hc
  cases i with
  | ofNat n => exact natDigitsAux_no_space _ _ c hc
  | negSucc n =>
    rcases List.mem_cons.mp hc with h1 | h2
    · subst h1
      decide
    · exact natDigitsAux_no_space _ _ c h2

/-- The `height,width` payload contains no whitespace, so `value.strip()` is
the identity on it. -/
theorem pyStrip_size_value (a b : Int) :
    pyStrip (intToString a ++ "," ++ intToString b) = intToString a ++ "," ++ intToString b := by
  have hmem : ∀ c ∈ (intToString a ++ "," ++ intToString b).toList, isPySpace c = false := by
    intro c hc
    have hc2 : c ∈ ((intToString a).data ++ [',']) ++ (intToString b).data := hc
    rcases List.mem_append.mp hc2 with h1 | h2
    · rcases List.mem_append.mp h1 with h3 | h4
      · exact intToString_no_space a c h3
      · simp only [List.mem_singleton] at h4
        subst h4
        decide
    · exact intToString_no_space b c h2
  show String.mk (pyStripList (intToString a ++ "," ++ intToString b).toList) = _
  rw [pyStripList_eq_self
    (fun c hc => hmem c (List.mem_of_mem_head? hc))
    (fun c hc => hmem c (List.mem_of_getLast?_eq_some hc))]
  rfl

theorem size_value_ne_empty (a b : Int) : intToString a ++ "," ++ intToString b ≠ "" := by
  intro he
  have hmem : ',' ∈ (intToString a ++ "," ++ intToString b).toList :=
    List.mem_append.mpr (Or.inl (List.mem_append.mpr (Or.inr (List.mem_singleton.mpr rfl))))
  rw [he] at hmem
  exact (List.not_mem_nil _) hmem

set_option maxRecDepth 100000 in
theorem default_args_keys : ∀ a ∈ CHROME_DEFAULT_ARGS,
    parseKey a ≠ "window-size" ∧ parseKey a ≠ "start-maximized" ∧
    parseKey a ≠ "headless" := by decide

theorem docker_args_keys : ∀ a ∈ CHROME_DOCKER_ARGS,
    parseKey a ≠ "window-size" ∧ parseKey a ≠ "start-maximized" ∧
    parseKey a ≠ "headless" := by decide

theorem security_args_keys : ∀ a ∈ CHROME_DISABLE_SECURITY_ARGS,
    parseKey a ≠ "window-size" ∧ parseKey a ≠ "start-maximized" ∧
    parseKey a ≠ "headless" := by decide

theorem deterministic_args_keys : ∀ a ∈ CHROME_DETERMINISTIC_RENDERING_ARGS,
    parseKey a ≠ "window-size" ∧ parseKey a ≠ "start-maximized" ∧
    parseKey a ≠ "headless" := by decide

/-! ### Segment decomposition of the composed input -/

theorem composedInput_eq (env : Bool) (p : BrowserProfile) :
    composedInput env p = (composedPre env p ++ windowSizeSeg p) ++ windowPosSeg p := rfl

theorem dictLookup_foldl_append_last {init : List (String × String)} {l : List String}
    {a k v : String} (h : parseArg a = (k, v)) :
    dictLookup k (List.foldl dictStep init (l ++ [a])) = some v := by
  rw [List.foldl_append]
  show dictLookup k (dictInsert (List.foldl dictStep init l) (parseArg a).1 (parseArg a).2) =
    some v
  rw [h]
  exact dictLookup_insert_self _ _ _

theorem parseKey_window_size_flag (x y : String) :
    parseKey ("--window-size=" ++ x ++ "," ++ y) = "window-size" := by
  have he : ("--window-size=" ++ x ++ "," ++ y) = "--window-size=" ++ (x ++ "," ++ y) := rfl
  rw [he, parseKey_window_size]

theorem parseKey_window_position_flag (x y : String) :
    parseKey ("--window-position=" ++ x ++ "," ++ y) = "window-position" := by
  have he : ("--window-position=" ++ x ++ "," ++ y) =
      "--window-position=" ++ (x ++ "," ++ y) := rfl
  rw [he, parseKey_window_position]

theorem mem_if_list {c : Prop} [Decidable c] {L : List String} {a : String}
    (h : a ∈ if c then L else []) : a ∈ L := by
  by_cases hc : c
  · rwa [if_pos hc] at h
  · rw [if_neg hc] at h
    simp at h

/-- Exhaustive description of where a flag of the composed input comes from. -/
theorem composed_key_cases (env : Bool) (p : BrowserProfile) (a : String)
    (ha : a ∈ composedInput env p) :
    a ∈ CHROME_DEFAULT_ARGS ∨ a ∈ p.args ∨
    a = "--profile-directory=" ++ p.profile_directory ∨
    a ∈ CHROME_DOCKER_ARGS ∨
    (tvBool p.headless = true ∧ a = "--headless=new") ∨
    a ∈ CHROME_DISABLE_SECURITY_ARGS ∨ a ∈ CHROME_DETERMINISTIC_RENDERING_ARGS ∨
    (∃ ws : ViewportSize, p.window_size = some ws ∧
      a = "--window-size=" ++ intToString ws.height ++ "," ++ intToString ws.width) ∨
    (p.window_size = none ∧ tvBool p.headless = false ∧ a = "--start-maximized") ∨
    (∃ wp : ViewportSize, p.window_position = some wp ∧
      a = "--window-position=" ++ intToString wp.width ++ "," ++ intToString wp.height) := by
  rw [composedInput_eq] at ha
  rcases List.mem_append.mp ha with h09 | h10
  on_goal 2 =>
    refine Or.inr (Or.inr (Or.inr (Or.inr (Or.inr (Or.inr (Or.inr (Or.inr (Or.inr ?_))))))))
    unfold windowPosSeg at h10
    cases hwp : p.window_position with
    | none => rw [hwp] at h10; simp at h10
    | some wp =>
      rw [hwp] at h10
      simp only [List.mem_singleton] at h10
      exact ⟨wp, rfl, h10⟩
  rcases List.mem_append.mp h09 with h08 | h9
  on_goal 2 =>
    unfold windowSizeSeg at h9
    cases hws : p.window_size with
    | some ws =>
      rw [hws] at h9
      simp only [List.mem_singleton] at h9
      exact Or.inr (Or.inr (Or.inr (Or.inr (Or.inr (Or.inr (Or.inr (Or.inl ⟨ws, rfl, h9⟩)))))))
    | none =>
      rw [hws] at h9
      by_cases hh : tvBool p.headless = true
      · rw [hh] at h9
        simp at h9
      · rw [Bool.not_eq_true] at hh
        rw [hh] at h9
        simp at h9
        exact Or.inr (Or.inr (Or.inr (Or.inr (Or.inr (Or.inr (Or.inr (Or.inr (Or.inl
          ⟨rfl, hh, h9⟩))))))))
  unfold composedPre at h08
  rcases List.mem_append.mp h08 with h07 | h8
  on_goal 2 =>
    exact Or.inr (Or.inr (Or.inr (Or.inr (Or.inr (Or.inr (Or.inl (mem_if_list h8)))))))
  rcases List.mem_append.mp h07 with h06 | h7
  on_goal 2 =>
    exact Or.inr (Or.inr (Or.inr (Or.inr (Or.inr (Or.inl (mem_if_list h7))))))
  rcases List.mem_append.mp h06 with h05 | h6
  on_goal 2 =>
    by_cases hh : tvBool p.headless = true
    · rw [if_pos hh] at h6
      simp only [CHROME_HEADLESS_ARGS, List.mem_singleton] at h6
      exact Or.inr (Or.inr (Or.inr (Or.inr (Or.inl ⟨hh, h6⟩))))
    · rw [if_neg hh] at h6
      simp at h6
  rcases List.mem_append.mp h05 with h04 | h5
  on_goal 2 =>
    exact Or.inr (Or.inr (Or.inr (Or.inl (mem_if_list h5))))
  rcases List.mem_append.mp h04 with h03 | h4
  on_goal 2 =>
    simp only [List.mem_singleton] at h4
    exact Or.inr (Or.inr (Or.inl h4))
  rcases List.mem_append.mp h03 with h02 | h3
  on_goal 2 =>
    exact Or.inr (Or.inl h3)
  cases hig : p.ignore_default_args with
  | explicitList l =>
    rw [hig] at h02
    exact Or.inl (mem_pySetDiff.mp h02).1
  | suppressAll =>
    rw [hig] at h02
    simp at h02

/-! ### Auxiliary facts for the migration and validator claims -/

theorem tvBool_eq_true {o : Option Bool} : tvBool o = true ↔ o = some true := by
  cases o with
  | none => simp [tvBool]
  | some b => cases b <;> simp [tvBool]

theorem pyOrIntD_ne_zero {a : Option Int} {d : Int} (hd : d ≠ 0) : pyOrIntD a d ≠ 0 := by
  unfold pyOrIntD
  cases a with
  | none => simpa [tvInt] using hd
  | some x =>
    by_cases hx : x = 0
    · simp [tvInt, hx]
      exact hd
    · simp [tvInt, hx]

theorem pyOrIntD_of_ne_zero {w : Int} (hw : w ≠ 0) (b : Option Int) (d : Int) :
    pyOrIntD (pyOrInt (some w) b) d = w := by
  simp [pyOrInt, pyOrIntD, tvInt, hw]

/-! ### Claims -/

/-- C2: the composer's deduplication parses each flag into a `(key, value)`
pair (split on the first `'='`, no-`'='` flags get an empty value — this is
the `parseArg` / `args_as_dict` definition), resolves duplicate keys
last-write-wins while keeping each key at its first-seen position, renders an
empty value as bare `--key` and a non-empty one as `--key=value` (the
`renderArg` / `args_as_list` definition), and consequently no two flags of
the final list share a key; `["--foo=1", "--foo=2"]` composes to
`["--foo=2"]`. -/
theorem composer_dedup_last_write_wins :
    (∀ args : List String, ((args_as_list (args_as_dict args)).map parseKey).Nodup) ∧
    (∀ (args : List String) (a : String),
      dictLookup (parseArg a).1 (args_as_dict (args ++ [a])) = some (parseArg a).2) ∧
    (∀ (args : List String) (a : String),
      (args_as_dict (args ++ [a])).map Prod.fst =
        if (parseArg a).1 ∈ (args_as_dict args).map Prod.fst
        then (args_as_dict args).map Prod.fst
        else (args_as_dict args).map Prod.fst ++ [(parseArg a).1]) ∧
    args_as_list (args_as_dict ["--foo=1", "--foo=2"]) = ["--foo=2"] := by
  refine ⟨?_, ?_, ?_, by decide⟩
  · intro args
    rw [map_parseKey_compose]
    exact foldl_dictStep_keys_nodup args [] (by simp)
  · intro args a
    rw [args_as_dict_eq_foldl, List.foldl_append]
    exact dictLookup_insert_self _ _ _
  · intro args a
    rw [args_as_dict_eq_foldl, args_as_dict_eq_foldl, List.foldl_append]
    exact dictInsert_keys _ _ _

/-- C4: the cross-field validator that runs after all fields are populated
fails exactly when `headless = true` and `devtools = true`; every other
combination of the two fields passes it. -/
theorem headless_devtools_validator (p : BrowserProfile) :
    (validate_devtools_headless p =
        Except.error "headless=True and devtools=True cannot both be set at the same time" ↔
      p.headless = some true ∧ p.devtools = true) ∧
    (¬(p.headless = some true ∧ p.devtools = true) →
      validate_devtools_headless p = Except.ok p) := by
  have hb : (tvBool p.headless && p.devtools) = true ↔
      (p.headless = some true ∧ p.devtools = true) := by
    rw [Bool.and_eq_true, tvBool_eq_true]
  constructor
  · constructor
    · intro h
      by_cases hc : (tvBool p.headless && p.devtools) = true
      · exact hb.mp hc
      · unfold validate_devtools_headless at h
        rw [if_neg hc] at h
        exact absurd h (by simp)
    · intro hpq
      unfold validate_devtools_headless
      rw [if_pos (hb.mpr hpq)]
  · intro h
    unfold validate_devtools_headless
    rw [if_neg (fun hc => h (hb.mp hc))]

theorem headless_devtools_validator_witness :
    validate_devtools_headless
        { defaultProfile with headless := some true, devtools := true } =
      Except.error "headless=True and devtools=True cannot both be set at the same time" ∧
    validate_devtools_headless { defaultProfile with headless := some true } =
      Except.ok { defaultProfile with headless := some true } :=
  ⟨(headless_devtools_validator _).1.mpr ⟨rfl, rfl⟩,
   (headless_devtools_validator _).2 (by decide)⟩

/-- C5: the deprecated-field migration runs only when a legacy field is set
(profiles with both legacy fields unset are untouched), existing `window_size`
components win over legacy values, legacy values default to `1280`/`1100`
when absent, `window_width=800, window_height=600` with no `window_size`
migrates to `window_size = {width 800, height 600}`, and the migration is
idempotent. -/
theorem migration_folds_legacy_fields :
    (∀ p : BrowserProfile, p.window_width = none → p.window_height = none →
      copy_old_config_names_to_new p = p) ∧
    (∀ (p : BrowserProfile) (w h : Int), p.window_size = some ⟨w, h⟩ → w ≠ 0 → h ≠ 0 →
      (copy_old_config_names_to_new p).window_size = some ⟨w, h⟩) ∧
    (∀ p : BrowserProfile, p.window_size = none → p.window_height = none →
      p.window_width = some 800 →
      (copy_old_config_names_to_new p).window_size = some ⟨800, 1100⟩) ∧
    (∀ p : BrowserProfile, p.window_size = none → p.window_width = none →
      p.window_height = some 600 →
      (copy_old_config_names_to_new p).window_size = some ⟨1280, 600⟩) ∧
    (∀ p : BrowserProfile, p.window_size = none → p.window_width = some 800 →
      p.window_height = some 600 →
      (copy_old_config_names_to_new p).window_size = some ⟨800, 600⟩) ∧
    (∀ p : BrowserProfile,
      copy_old_config_names_to_new (copy_old_config_names_to_new p) =
        copy_old_config_names_to_new p) := by
  refine ⟨?_, ?_, ?_, ?_, ?_, ?_⟩
  · intro p h1 h2
    unfold copy_old_config_names_to_new
    rw [h1, h2]
    rfl
  · intro p w h hws hw hh
    unfold copy_old_config_names_to_new
    by_cases hc : (tvInt p.window_width || tvInt p.window_height) = true
    · rw [if_pos hc]
      show some (ViewportSize.mk
          (pyOrIntD (pyOrInt (p.window_size.map ViewportSize.width) p.window_width) 1280)
          (pyOrIntD (pyOrInt (p.window_size.map ViewportSize.height) p.window_height) 1100)) =
        some (ViewportSize.mk w h)
      rw [hws]
      show some (ViewportSize.mk
          (pyOrIntD (pyOrInt (some w) p.window_width) 1280)
          (pyOrIntD (pyOrInt (some h) p.window_height) 1100)) = some (ViewportSize.mk w h)
      rw [pyOrIntD_of_ne_zero hw, pyOrIntD_of_ne_zero hh]
    · rw [if_neg hc]
      exact hws
  · intro p hws hwh hww
    unfold copy_old_config_names_to_new
    rw [hws, hwh, hww]
    rfl
  · intro p hws hww hwh
    unfold copy_old_config_names_to_new
    rw [hws, hww, hwh]
    rfl
  · intro p hws hww hwh
    unfold copy_old_config_names_to_new
    rw [hws, hww, hwh]
    rfl
  · intro p
    by_cases hc : (tvInt p.window_width || tvInt p.window_height) = true
    · have h1 : copy_old_config_names_to_new p =
          { p with window_size := some (ViewportSize.mk
              (pyOrIntD (pyOrInt (p.window_size.map ViewportSize.width) p.window_width) 1280)
              (pyOrIntD (pyOrInt (p.window_size.map ViewportSize.height) p.window_height) 1100)) } := by
        unfold copy_old_config_names_to_new
        rw [if_pos hc]
      rw [h1]
      unfold copy_old_config_names_to_new
      rw [if_pos hc]
      show ({ p with window_size := some (ViewportSize.mk
          (pyOrIntD (pyOrInt (some (pyOrIntD (pyOrInt (p.window_size.map ViewportSize.width) p.window_width) 1280)) p.window_width) 1280)
          (pyOrIntD (pyOrInt (some (pyOrIntD (pyOrInt (p.window_size.map ViewportSize.height) p.window_height) 1100)) p.window_height) 1100)) }
        : BrowserProfile) =
        { p with window_size := some (ViewportSize.mk
            (pyOrIntD (pyOrInt (p.window_size.map ViewportSize.width) p.window_width) 1280)
            (pyOrIntD (pyOrInt (p.window_size.map ViewportSize.height) p.window_height) 1100)) }
      rw [pyOrIntD_of_ne_zero (pyOrIntD_ne_zero (by decide)) p.window_width,
          pyOrIntD_of_ne_zero (pyOrIntD_ne_zero (by decide)) p.window_height]
    · have h1 : copy_old_config_names_to_new p = p := by
        unfold copy_old_config_names_to_new
        rw [if_neg hc]
      rw [h1, h1]

theorem migration_folds_legacy_fields_witness :
    (copy_old_config_names_to_new
        { defaultProfile with window_width := some 800, window_height := some 600 }).window_size =
      some ⟨800, 600⟩ ∧
    copy_old_config_names_to_new defaultProfile = defaultProfile ∧
    (copy_old_config_names_to_new
        { defaultProfile with window_size := some ⟨1024, 768⟩, window_width := some 800 }).window_size =
      some ⟨1024, 768⟩ :=
  ⟨migration_folds_legacy_fields.2.2.2.2.1 _ rfl rfl rfl,
   migration_folds_legacy_fields.1 _ rfl rfl,
   migration_folds_legacy_fields.2.1 _ 1024 768 rfl (by decide) (by decide)⟩

/-- C10: whenever `window_size = {width W, height H}` is set, the composed
output contains the flag `--window-size=H,W`: the height is rendered first
and the width second. -/
theorem window_size_flag_height_first (env : Bool) (p : BrowserProfile)
    (ws : ViewportSize) (h : p.window_size = some ws) :
    ("--window-size=" ++ intToString ws.height ++ "," ++ intToString ws.width) ∈
      get_args env p := by
  have hflag : windowSizeSeg p =
      ["--window-size=" ++ intToString ws.height ++ "," ++ intToString ws.width] := by
    unfold windowSizeSeg
    rw [h]
  have hpos : ∀ a ∈ windowPosSeg p, parseKey a ≠ "window-size" := by
    intro a ha
    unfold windowPosSeg at ha
    cases hwp : p.window_position with
    | none =>
      rw [hwp] at ha
      simp at ha
    | some wp =>
      rw [hwp] at ha
      simp only [List.mem_singleton] at ha
      subst ha
      rw [parseKey_window_position_flag]
      decide
  have hparse : parseArg
      ("--window-size=" ++ intToString ws.height ++ "," ++ intToString ws.width) =
      ("window-size", intToString ws.height ++ "," ++ intToString ws.width) := by
    have he : ("--window-size=" ++ intToString ws.height ++ "," ++ intToString ws.width) =
        "--window-size=" ++ (intToString ws.height ++ "," ++ intToString ws.width) := rfl
    rw [he, parseArg_window_size, pyStrip_size_value]
  have hlookup : dictLookup "window-size" (args_as_dict (composedInput env p)) =
      some (intToString ws.height ++ "," ++ intToString ws.width) := by
    rw [composedInput_eq, args_as_dict_eq_foldl, List.foldl_append,
        dictLookup_foldl_ne hpos, hflag]
    exact dictLookup_foldl_append_last hparse
  have hmem : ("window-size", intToString ws.height ++ "," ++ intToString ws.width) ∈
      args_as_dict (composedInput env p) := dictLookup_mem hlookup
  have hrender : renderArg
      ("window-size", intToString ws.height ++ "," ++ intToString ws.width) =
      "--window-size=" ++ intToString ws.height ++ "," ++ intToString ws.width := by
    unfold renderArg
    rw [if_neg (size_value_ne_empty _ _)]
    rw [show lstripDashes "window-size" = "window-size" from by decide]
    rfl
  exact hrender ▸ List.mem_map_of_mem renderArg hmem

theorem window_size_flag_height_first_witness :
    "--window-size=600,800" ∈ get_args false sizedProfile := by
  have h := window_size_flag_height_first false sizedProfile ⟨800, 600⟩ rfl
  have he : ("--window-size=" ++ intToString (ViewportSize.mk 800 600).height ++ "," ++
      intToString (ViewportSize.mk 800 600).width) = "--window-size=600,800" := by decide
  rw [he] at h
  exact h

set_option maxRecDepth 100000 in
/-- C1 counterexample: a headless profile whose `window_size` is set makes
`get_args` emit both the headless flag and a window-size flag, refuting
"headless output never contains a window-size flag". -/
theorem headless_window_size_counterexample :
    headlessSizedProfile.headless = some true ∧
    "--window-size=600,800" ∈ get_args false headlessSizedProfile ∧
    parseKey "--window-size=600,800" = "window-size" := by decide

/-- C1 (amended): headless output carries no window-size flag provided
`window_size` is unset (and the caller's extra args do not smuggle one in),
and carries no maximize flag under the same proviso; non-headless output
carries no headless flag unless the caller's extra args contain one. -/
theorem headless_geometry_flag_exclusion (env : Bool) (p : BrowserProfile) :
    (p.headless = some true → p.window_size = none →
      (∀ a ∈ p.args, parseKey a ≠ "window-size" ∧ parseKey a ≠ "start-maximized") →
      ∀ f ∈ get_args env p, parseKey f ≠ "window-size" ∧ parseKey f ≠ "start-maximized") ∧
    (p.headless = some false →
      (∀ a ∈ p.args, parseKey a ≠ "headless") →
      ∀ f ∈ get_args env p, parseKey f ≠ "headless") := by
  constructor
  · intro hhl hws hargs f hf
    obtain ⟨a, ha, hkey⟩ := List.mem_map.mp (parseKey_mem_of_mem_compose hf)
    rw [← hkey]
    rcases composed_key_cases env p a ha with
      h1 | h2 | h3 | h4 | h5 | h6 | h7 | h8 | h9 | h10
    · exact ⟨(default_args_keys a h1).1, (default_args_keys a h1).2.1⟩
    · exact hargs a h2
    · subst h3
      rw [parseKey_profile_directory]
      exact ⟨by decide, by decide⟩
    · exact ⟨(docker_args_keys a h4).1, (docker_args_keys a h4).2.1⟩
    · rw [h5.2]
      exact ⟨by decide, by decide⟩
    · exact ⟨(security_args_keys a h6).1, (security_args_keys a h6).2.1⟩
    · exact ⟨(deterministic_args_keys a h7).1, (deterministic_args_keys a h7).2.1⟩
    · obtain ⟨ws, hws2, _⟩ := h8
      rw [hws] at hws2
      exact absurd hws2 (by simp)
    · obtain ⟨_, htv, _⟩ := h9
      rw [hhl] at htv
      exact absurd htv (by decide)
    · obtain ⟨wp, _, ha2⟩ := h10
      subst ha2
      rw [parseKey_window_position_flag]
      exact ⟨by decide, by decide⟩
  · intro hhl hargs f hf
    obtain ⟨a, ha, hkey⟩ := List.mem_map.mp (parseKey_mem_of_mem_compose hf)
    rw [← hkey]
    rcases composed_key_cases env p a ha with
      h1 | h2 | h3 | h4 | h5 | h6 | h7 | h8 | h9 | h10
    · exact (default_args_keys a h1).2.2
    · exact hargs a h2
    · subst h3
      rw [parseKey_profile_directory]
      decide
    · exact (docker_args_keys a h4).2.2
    · rw [hhl] at h5
      exact absurd h5.1 (by decide)
    · exact (security_args_keys a h6).2.2
    · exact (deterministic_args_keys a h7).2.2
    · obtain ⟨ws, _, ha2⟩ := h8
      subst ha2
      rw [parseKey_window_size_flag]
      decide
    · rw [h9.2.2]
      decide
    · obtain ⟨wp, _, ha2⟩ := h10
      subst ha2
      rw [parseKey_window_position_flag]
      decide

theorem headless_geometry_flag_exclusion_witness :
    (∀ f ∈ get_args false { defaultProfile with headless := some true },
      parseKey f ≠ "window-size" ∧ parseKey f ≠ "start-maximized") ∧
    (∀ f ∈ get_args false { defaultProfile with headless := some false },
      parseKey f ≠ "headless") :=
  ⟨(headless_geometry_flag_exclusion false _).1 rfl rfl (by decide),
   (headless_geometry_flag_exclusion false _).2 rfl (by decide)⟩

/-- C3: the composer reads only the argument-relevant profile fields and the
environment signal, so equal profile states (under the same environment
signal) always yield the identical ordered flag list — including the two
baseline modes: an explicit suppression list (exact-string set difference
from the default catalog) and the literal suppress-all value (empty
baseline). -/
theorem composer_deterministic :
    (∀ (env : Bool) (p q : BrowserProfile),
      p.args = q.args → p.ignore_default_args = q.ignore_default_args →
      p.profile_directory = q.profile_directory → p.headless = q.headless →
      p.disable_security = q.disable_security →
      p.deterministic_rendering = q.deterministic_rendering →
      p.window_size = q.window_size → p.window_position = q.window_position →
      get_args env p = get_args env q) ∧
    (∀ (l : List String) (x : String),
      x ∈ pySetDiff CHROME_DEFAULT_ARGS l ↔ x ∈ CHROME_DEFAULT_ARGS ∧ x ∉ l) := by
  constructor
  · intro env p q h1 h2 h3 h4 h5 h6 h7 h8
    unfold get_args composedInput
    rw [h1, h2, h3, h4, h5, h6, h7, h8]
  · intro l x
    exact mem_pySetDiff

theorem composer_deterministic_witness :
    get_args false profileA = get_args false defaultProfile :=
  composer_deterministic.1 false profileA defaultProfile rfl rfl rfl rfl rfl rfl rfl rfl

/-! ### Lemmas about the display resolver -/

theorem pyOrVS_none_left (b : Option ViewportSize) : pyOrVS none b = b := rfl

theorem pyOrVS_some_left (x : ViewportSize) (b : Option ViewportSize) :
    pyOrVS (some x) b = some x := rfl

theorem pyOrVS_some_isSome (a : Option ViewportSize) (c : ViewportSize) :
    (pyOrVS a (some c)).isSome = true := by
  cases a <;> rfl

theorem pyOrVS_some_absorb (a : Option ViewportSize) (c : ViewportSize)
    (x : Option ViewportSize) : pyOrVS (pyOrVS a (some c)) x = pyOrVS a (some c) := by
  cases a <;> rfl

theorem pyOrVS_fb_isSome (a b : Option ViewportSize) (c : ViewportSize) :
    (pyOrVS a (pyOrVS b (some c))).isSome = true := by
  cases a <;> cases b <;> rfl

theorem pyOrVS_fb_absorb (a b : Option ViewportSize) (c : ViewportSize)
    (x : Option ViewportSize) :
    pyOrVS (pyOrVS a (pyOrVS b (some c))) x = pyOrVS a (pyOrVS b (some c)) := by
  cases a <;> cases b <;> rfl

theorem pyOrRat_ne_zero (a : Option Rat) : pyOrRat a 1 ≠ 0 := by
  cases a with
  | none => simp [pyOrRat]
  | some x =>
    by_cases hx : x = 0 <;> simp [pyOrRat, hx]

theorem pyOrRat_idem (a : Option Rat) : pyOrRat (some (pyOrRat a 1)) 1 = pyOrRat a 1 := by
  show (if pyOrRat a 1 = 0 then 1 else pyOrRat a 1) = pyOrRat a 1
  rw [if_neg (pyOrRat_ne_zero a)]

theorem pyOrRat_default {a : Option Rat} (h : tvRat a = false) : pyOrRat a 1 = 1 := by
  cases a with
  | none => rfl
  | some x =>
    simp only [tvRat, bne_eq_false_iff_eq] at h
    simp [pyOrRat, h]

/-- C6: with no detected display and all geometry fields unset, display
resolution yields `headless = true`, the `1280x1100` fallback viewport, and
no window size; in general an unset `headless` defaults to whether no
display was detected. -/
theorem display_resolution_no_display :
    (∀ p : BrowserProfile, p.headless = none → p.viewport = none → p.no_viewport = none →
      p.device_scale_factor = none → p.screen = none → p.window_size = none →
      p.window_position = none →
      (detect_display_configuration none p).headless = some true ∧
      (detect_display_configuration none p).viewport = some ⟨1280, 1100⟩ ∧
      (detect_display_configuration none p).window_size = none) ∧
    (∀ (d : Option ViewportSize) (p : BrowserProfile), p.headless = none →
      (detect_display_configuration d p).headless = some d.isNone) := by
  constructor
  · intro p h1 h2 h3 h4 h5 h6 h7
    refine ⟨?_, ?_, ?_⟩ <;>
      simp [detect_display_configuration, h1, h2, h3, h4, h5, h6, h7, pyOrVS_none_left,
        pyOrVS_some_left, tvBool, tvRat, fallbackVS]
  · intro d p h1
    simp [detect_display_configuration, h1]

theorem display_resolution_no_display_witness :
    (detect_display_configuration none defaultProfile).headless = some true ∧
    (detect_display_configuration none defaultProfile).viewport = some ⟨1280, 1100⟩ ∧
    (detect_display_configuration none
      { defaultProfile with window_position := none }).window_size = none ∧
    (detect_display_configuration (some ⟨1920, 1080⟩) defaultProfile).headless = some false :=
  ⟨(display_resolution_no_display.2 none defaultProfile rfl).trans rfl,
   ((display_resolution_no_display.1 { defaultProfile with window_position := none }
      rfl rfl rfl rfl rfl rfl rfl).2.1).trans rfl,
   (display_resolution_no_display.1 { defaultProfile with window_position := none }
      rfl rfl rfl rfl rfl rfl rfl).2.2,
   (display_resolution_no_display.2 (some ⟨1920, 1080⟩) defaultProfile rfl).trans rfl⟩

/-- C7: with a detected `1920x1080` display, `headless = false`, and the
viewport and window geometry fields unset, display resolution yields
`window_size = 1920x1080`, `no_viewport = true`, and `viewport = none`. -/
theorem display_resolution_with_display (p : BrowserProfile)
    (h1 : p.headless = some false) (h2 : p.viewport = none) (h3 : p.no_viewport = none)
    (h4 : p.device_scale_factor = none) (h5 : p.window_size = none) :
    (detect_display_configuration (some ⟨1920, 1080⟩) p).window_size = some ⟨1920, 1080⟩ ∧
    (detect_display_configuration (some ⟨1920, 1080⟩) p).no_viewport = some true ∧
    (detect_display_configuration (some ⟨1920, 1080⟩) p).viewport = none := by
  refine ⟨?_, ?_, ?_⟩ <;>
    simp [detect_display_configuration, h1, h2, h3, h4, h5, pyOrVS_none_left,
      pyOrVS_some_left, tvBool, tvRat]

theorem display_resolution_with_display_witness :
    (detect_display_configuration (some ⟨1920, 1080⟩)
        { defaultProfile with headless := some false }).window_size = some ⟨1920, 1080⟩ ∧
    (detect_display_configuration (some ⟨1920, 1080⟩)
        { defaultProfile with headless := some false }).no_viewport = some true ∧
    (detect_display_configuration (some ⟨1920, 1080⟩)
        { defaultProfile with headless := some false }).viewport = none :=
  display_resolution_with_display { defaultProfile with headless := some false }
    rfl rfl rfl rfl rfl

/-- C8: after display resolution, either a viewport is in effect
(`no_viewport = false`: viewport, device-scale-factor and screen are all
non-null, the scale factor defaulting to `1.0` when it was unset or zero) or
it is not (`no_viewport = true`: all three are null); `no_viewport` itself is
always one of the two. -/
theorem display_resolution_viewport_dichotomy (d : Option ViewportSize)
    (p : BrowserProfile) :
    ((detect_display_configuration d p).no_viewport = some false →
      (detect_display_configuration d p).viewport.isSome = true ∧
      (detect_display_configuration d p).device_scale_factor.isSome = true ∧
      (detect_display_configuration d p).screen.isSome = true) ∧
    ((detect_display_configuration d p).no_viewport = some true →
      (detect_display_configuration d p).viewport = none ∧
      (detect_display_configuration d p).device_scale_factor = none ∧
      (detect_display_configuration d p).screen = none) ∧
    ((detect_display_configuration d p).no_viewport = some false ∨
      (detect_display_configuration d p).no_viewport = some true) ∧
    ((detect_display_configuration d p).no_viewport = some false →
      tvRat p.device_scale_factor = false →
      (detect_display_configuration d p).device_scale_factor = some 1) := by
  obtain ⟨hl, dt, ar, ig, pd, ds, dr, ws, ww, wh, wp, vp, nv, dsf, scr, ka⟩ := p
  rcases hl with _ | b
  · rcases d with _ | dv
    · (refine ⟨?_, ?_, ?_, ?_⟩ <;>
        simp [detect_display_configuration, pyOrVS_none_left, pyOrVS_some_left,
          pyOrVS_some_isSome, pyOrVS_fb_isSome, tvBool]) <;>
        exact fun hdf => pyOrRat_default hdf
    · rcases nv with _ | nb
      · (refine ⟨?_, ?_, ?_, ?_⟩ <;>
          simp [detect_display_configuration, pyOrVS_none_left, pyOrVS_some_left,
            pyOrVS_some_isSome, pyOrVS_fb_isSome, tvBool]) <;>
          exact fun hdf => pyOrRat_default hdf
      · cases nb <;> (refine ⟨?_, ?_, ?_, ?_⟩ <;>
          simp [detect_display_configuration, pyOrVS_none_left, pyOrVS_some_left,
            pyOrVS_some_isSome, pyOrVS_fb_isSome, tvBool]) <;>
          exact fun hdf => pyOrRat_default hdf
  · cases b
    · rcases nv with _ | nb
      · (refine ⟨?_, ?_, ?_, ?_⟩ <;>
          simp [detect_display_configuration, pyOrVS_none_left, pyOrVS_some_left,
            pyOrVS_some_isSome, pyOrVS_fb_isSome, tvBool]) <;>
          exact fun hdf => pyOrRat_default hdf
      · cases nb <;> (refine ⟨?_, ?_, ?_, ?_⟩ <;>
          simp [detect_display_configuration, pyOrVS_none_left, pyOrVS_some_left,
            pyOrVS_some_isSome, pyOrVS_fb_isSome, tvBool]) <;>
          exact fun hdf => pyOrRat_default hdf
    · (refine ⟨?_, ?_, ?_, ?_⟩ <;>
        simp [detect_display_configuration, pyOrVS_none_left, pyOrVS_some_left,
          pyOrVS_some_isSome, pyOrVS_fb_isSome, tvBool]) <;>
        exact fun hdf => pyOrRat_default hdf

theorem display_resolution_viewport_dichotomy_witness :
    (detect_display_configuration none defaultProfile).no_viewport = some false ∧
    (detect_display_configuration none defaultProfile).viewport.isSome = true ∧
    (detect_display_configuration none defaultProfile).device_scale_factor = some 1 ∧
    (detect_display_configuration none defaultProfile).screen.isSome = true := by
  have h := display_resolution_viewport_dichotomy none defaultProfile
  have hnv : (detect_display_configuration none defaultProfile).no_viewport = some false := rfl
  exact ⟨hnv, (h.1 hnv).1, h.2.2.2 hnv rfl, (h.1 hnv).2.2⟩

/-- C9: display resolution is idempotent for a fixed (memoized) platform
display-size answer: a second run right after a first changes none of the
profile's fields. -/
theorem display_resolution_idempotent (d : Option ViewportSize) (p : BrowserProfile) :
    detect_display_configuration d (detect_display_configuration d p) =
      detect_display_configuration d p := by
  obtain ⟨hl, dt, ar, ig, pd, ds, dr, ws, ww, wh, wp, vp, nv, dsf, scr, ka⟩ := p
  rcases hl with _ | b
  · rcases d with _ | dv
    · simp [detect_display_configuration, pyOrVS_none_left, pyOrVS_some_left,
        pyOrVS_some_isSome, pyOrVS_some_absorb, pyOrVS_fb_isSome, pyOrVS_fb_absorb,
        pyOrRat_idem, tvBool]
    · rcases nv with _ | nb
      · simp [detect_display_configuration, pyOrVS_none_left, pyOrVS_some_left,
          pyOrVS_some_isSome, pyOrVS_some_absorb, pyOrVS_fb_isSome, pyOrVS_fb_absorb,
          pyOrRat_idem, tvBool]
      · cases nb <;>
          simp [detect_display_configuration, pyOrVS_none_left, pyOrVS_some_left,
            pyOrVS_some_isSome, pyOrVS_some_absorb, pyOrVS_fb_isSome, pyOrVS_fb_absorb,
            pyOrRat_idem, tvBool]
  · cases b
    · rcases nv with _ | nb
      · simp [detect_display_configuration, pyOrVS_none_left, pyOrVS_some_left,
          pyOrVS_some_isSome, pyOrVS_some_absorb, pyOrVS_fb_isSome, pyOrVS_fb_absorb,
          pyOrRat_idem, tvBool]
      · cases nb <;>
          simp [detect_display_configuration, pyOrVS_none_left, pyOrVS_some_left,
            pyOrVS_some_isSome, pyOrVS_some_absorb, pyOrVS_fb_isSome, pyOrVS_fb_absorb,
            pyOrRat_idem, tvBool]
    · simp [detect_display_configuration, pyOrVS_none_left, pyOrVS_some_left,
        pyOrVS_some_isSome, pyOrVS_some_absorb, pyOrVS_fb_isSome, pyOrVS_fb_absorb,
        pyOrRat_idem, tvBool]
